import Mathlib

/-!
# RobustMQ broker core: shallow embedding and verification

Shallow embedding of the broker-core slice of RobustMQ:
* `src/mqtt-broker/src/subscribe/exclusive_sub.rs` — the exclusive delivery
  push loop (`exclusive_sub_push_thread`);
* `src/mqtt-broker/src/handler/mqtt5.rs` — the MQTT v5 packet handlers
  (`connect`, `publish`, `publish_ack`, `publish_rel`, ...);
* `src/placement-center/src/server/grpc/service_journal.rs` — the journal
  metadata-mutation RPC service.

External collaborators (storage adapter, wire codec, ack builder, unique-id
generator, raft log) are modelled as explicit oracle parameters: each handler
takes the results those collaborators would return and we prove properties of
the handler for every possible oracle outcome.  Side effects (storage writes,
cache updates, log submissions, outbound packets) are reified as effect
traces so that statements about "what was executed" become statements about
lists.
-/

namespace RobustMQ

/-- MQTT QoS levels (`protocol::mqtt::QoS`). -/
inductive QoS
  | AtMostOnce
  | AtLeastOnce
  | ExactlyOnce
deriving DecidableEq, Repr

/-- Protocol version tag (`server::MQTTProtocol`). -/
inductive MQTTProtocol
  | MQTT4
  | MQTT5
deriving DecidableEq, Repr

/-- Numeric level of a QoS, used to order QoS values. -/
def qos_level : QoS → Nat
  | .AtMostOnce => 0
  | .AtLeastOnce => 1
  | .ExactlyOnce => 2

/-- Modelled from the spec: `min_qos` (defined in `subscribe/subscribe.rs`,
not part of this slice) returns `min(msg.qos, sub.qos)`, the smaller of the
two QoS levels. -/
def min_qos (a b : QoS) : QoS :=
  if qos_level a ≤ qos_level b then a else b

/-- A decoded message (`metadata::message::Message`): originating client,
QoS, retain flag and payload, as used by the push loop. -/
structure Message where
  client_id : String
  qos : QoS
  retain : Bool
  payload : String
deriving DecidableEq, Repr

/-- A raw record read from the message log: its log offset plus opaque
encoded bytes. -/
structure Record where
  offset : Nat
  data : String
deriving DecidableEq, Repr

/-- An exclusive subscription descriptor
(`metadata::subscriber::Subscriber`), with the fields the push loop reads. -/
structure Subscriber where
  protocol : MQTTProtocol
  client_id : String
  packet_identifier : Nat
  qos : QoS
  nolocal : Bool
  preserve_retain : Bool
  subscription_identifier : Option Nat
  topic_id : String
  topic_name : String
deriving DecidableEq, Repr

/-- An MQTT PUBLISH packet (`protocol::mqtt::Publish`). -/
structure Publish where
  dup : Bool
  qos : QoS
  pkid : Nat
  retain : Bool
  topic : String
  payload : String
deriving DecidableEq, Repr

/-- MQTT v5 PUBLISH properties (`protocol::mqtt::PublishProperties`), with
defaults matching the all-`None` literal built by the push loop. -/
structure PublishProperties where
  payload_format_indicator : Option Nat := none
  message_expiry_interval : Option Nat := none
  topic_alias : Option Nat := none
  response_topic : Option String := none
  correlation_data : Option String := none
  user_properties : List (String × String) := []
  subscription_identifiers : List Nat := []
  content_type : Option String := none
deriving DecidableEq, Repr

/-! ## Exclusive delivery push loop (`exclusive_sub.rs`)

One iteration of the push loop that obtained a batch of records from
`read_topic_message` is modelled as a function from the batch to the trace of
effects the loop body performs: outbound PUBLISH packets, offset commits and
error logs. `Message::decode_record` (external) is an oracle
`decode : Record → Except String Message`; the outcome of each
`commit_group_offset` call (external, best-effort) is an oracle indexed by
the position of the record being processed. -/

/-- An observable effect of the push-loop body. -/
inductive PushEffect
  | publish (connection_id : Nat) (packet : Publish) (props : PublishProperties)
  | commit (topic_id : String) (group_id : String) (offset : Nat)
  | logError (msg : String)
deriving DecidableEq, Repr

/-- `format!("system_sub_{}", subscribe.client_id)`: the consumer group id of
an exclusive subscription. -/
def group_id_of (s : Subscriber) : String :=
  "system_sub_" ++ s.client_id

/-- The `sub_id` vector built before the loop: the subscription identifier as
a singleton list when set, empty otherwise. -/
def sub_id_of (s : Subscriber) : List Nat :=
  match s.subscription_identifier with
  | some id => [id]
  | none => []

/-- The loop body for one record of the batch (`exclusive_sub.rs` lines
123–199).  `lastOffset` is `result.last().offset` (the batch is non-empty in
this branch); `cres` is the outcome `commit_group_offset` would return for
the commit attempted in this iteration.  Decode failure logs and skips;
a `nolocal` self-message skips; otherwise the PUBLISH is sent and the last
record's offset is committed (the commit statement sits inside the
per-record `for` loop in the source).  The committed topic name is
`subscribe.topic_id`; modelled from the spec: the source writes
`topic_id.clone()`, a name not in scope there, and the spec directs
implementers to use `subscribe.topic_id`. -/
def recordEffects (decode : Record → Except String Message) (s : Subscriber)
    (connect_id : Nat) (lastOffset : Nat) (cres : Except String Unit)
    (r : Record) : List PushEffect :=
  match decode r with
  | .error e => [.logError e]
  | .ok msg =>
    if s.nolocal && (s.client_id == msg.client_id) then
      []
    else
      let qos := min_qos msg.qos s.qos
      let retain := if s.preserve_retain then msg.retain else false
      let publish : Publish :=
        { dup := false
          qos := qos
          pkid := s.packet_identifier
          retain := retain
          topic := s.topic_name
          payload := msg.payload }
      let properties : PublishProperties :=
        { subscription_identifiers := sub_id_of s }
      let send := PushEffect.publish connect_id publish properties
      let commit := PushEffect.commit s.topic_id (group_id_of s) lastOffset
      match cres with
      | .ok _ => [send, commit]
      | .error e => [send, commit, .logError e]

/-- Effects of the per-record `for` loop over the remaining records, with `k`
the index of the first remaining record in the batch. -/
def pushRecordsAux (decode : Record → Except String Message) (s : Subscriber)
    (connect_id : Nat) (lastOffset : Nat) (cres : Nat → Except String Unit) :
    Nat → List Record → List PushEffect
  | _, [] => []
  | k, r :: rest =>
    recordEffects decode s connect_id lastOffset (cres k) r ++
      pushRecordsAux decode s connect_id lastOffset cres (k + 1) rest

/-- One loop iteration of the push thread after `read_topic_message`
returned `batch` (`exclusive_sub.rs` lines 117–200): an empty batch produces
no effects (the loop sleeps); otherwise every record is processed with the
batch's last offset available for commits. -/
def pushBatch (decode : Record → Except String Message) (s : Subscriber)
    (connect_id : Nat) (cres : Nat → Except String Unit)
    (batch : List Record) : List PushEffect :=
  match batch.getLast? with
  | none => []
  | some last => pushRecordsAux decode s connect_id last.offset cres 0 batch

/-- The outbound PUBLISH packets of an effect trace, in order. -/
def sentPackets (tr : List PushEffect) : List (Nat × Publish × PublishProperties) :=
  tr.filterMap fun e =>
    match e with
    | .publish cid p props => some (cid, p, props)
    | _ => none

/-- The `commit_group_offset` calls of an effect trace, in order. -/
def commitsOf (tr : List PushEffect) : List (String × String × Nat) :=
  tr.filterMap fun e =>
    match e with
    | .commit t g o => some (t, g, o)
    | _ => none

/-! ## MQTT v5 packet handlers (`handler/mqtt5.rs`)

Each handler is a function of the decoded packet, the `connect_id`, and an
environment record holding the results the external collaborators (metadata
cache lookups, storage calls, the authentication plugin, the unique-id
generator) would return; side effects on the cache, the heartbeat manager
and the stores are reified in a `BrokerEffect` trace. -/

/-- Disconnect reason codes used by this slice
(`protocol::mqtt::DisconnectReasonCode`). -/
inductive DisconnectReasonCode
  | NormalDisconnection
  | NotAuthorized
  | UnspecifiedError
  | AdministrativeAction
  | UseAnotherServer
deriving DecidableEq, Repr

/-- Per-client session state (`metadata::session::Session`, not part of this
slice).  Modelled from the spec: the fields this slice reads are
`keep_alive` and `session_present`. -/
structure Session where
  keep_alive : Nat
  session_present : Bool
deriving DecidableEq, Repr

/-- Outbound MQTT packets built by the handlers.  `MQTTAckBuild`
(`handler/packet.rs`, not part of this slice) is modelled from the spec: each
builder method produces the packet kind of its name carrying exactly the
arguments the handler passes at the call site (`distinct` builds a
DISCONNECT with a reason code and optional reason string; `conn_ack` a
CONNACK with the client id, the assigned-id flag and the session's
`session_present`; `pub_ack` a PUBACK with pkid and user properties;
`pub_rec` a PUBREC with `session_present`). -/
inductive MQTTPacket
  | disconnect (code : DisconnectReasonCode) (reason : Option String)
  | connAck (client_id : String) (assigned_client_id : Bool) (session_present : Bool)
  | pubAck (pkid : Nat) (user_properties : List (String × String))
  | pubRec (session_present : Bool)
  | pingResp
deriving DecidableEq, Repr

/-- Observable side effects of the packet handlers: storage writes, metadata
cache updates, heartbeat reports and error logs. -/
inductive BrokerEffect
  | saveSessionStore (client_id : String)
  | saveLastwillStore (client_id : String)
  | setSession (client_id : String) (session : Session)
  | setClientId (connect_id : Nat) (client_id : String)
  | reportHeartbeat (connect_id : Nat) (protocol : MQTTProtocol) (keep_alive : Nat)
  | logError (msg : String)
deriving DecidableEq, Repr

/-- The CONNECT packet fields this slice reads (`protocol::mqtt::Connect`):
only `client_id` is consumed directly by the handler. -/
structure Connect where
  client_id : String
deriving DecidableEq, Repr

/-- Oracle results for one `connect` call: the authentication plugin's
verdict, the value `unique_id()` would generate, and the results of
`save_connect_session` and `save_lastwill`. -/
structure ConnectEnv where
  auth : Except String Bool
  gen_client_id : String
  save_session : Except String Session
  save_lastwill : Except String Unit

/-- The `connect` handler (`mqtt5.rs` lines 58–167).  Control flow follows
the source: authentication first (`Ok(false)` and `Err` both answer
DISCONNECT(NotAuthorized), the latter with the error string, before anything
is persisted); then the client id is taken from the packet or generated when
empty; then the session is persisted, then the last-will (when present), and
only after both succeed are the cache (`set_session`, `set_client_id`) and
the heartbeat manager (`report_hearbeat`) updated and the CONNACK built. -/
def connect (env : ConnectEnv) (connect_id : Nat) (connnect : Connect)
    (last_will : Option String) : MQTTPacket × List BrokerEffect :=
  match env.auth with
  | .ok false => (.disconnect .NotAuthorized none, [])
  | .error e => (.disconnect .NotAuthorized (some e), [])
  | .ok true =>
    let client_id :=
      if connnect.client_id.isEmpty then env.gen_client_id
      else connnect.client_id
    match env.save_session with
    | .error e =>
      (.disconnect .AdministrativeAction (some e),
        [.saveSessionStore client_id, .logError e])
    | .ok client_session =>
      let afterSession : List BrokerEffect := [.saveSessionStore client_id]
      let finish (effs : List BrokerEffect) : MQTTPacket × List BrokerEffect :=
        (.connAck client_id connnect.client_id.isEmpty
            client_session.session_present,
          effs ++
            [.setSession client_id client_session,
             .setClientId connect_id client_id,
             .reportHeartbeat connect_id .MQTT5 client_session.keep_alive])
      match last_will with
      | none => finish afterSession
      | some _ =>
        match env.save_lastwill with
        | .error e =>
          (.disconnect .UnspecifiedError (some e),
            afterSession ++ [.saveLastwillStore client_id, .logError e])
        | .ok _ => finish (afterSession ++ [.saveLastwillStore client_id])

/-- The cache / heartbeat effects of a trace: `set_session`,
`set_client_id` and `report_hearbeat` calls. -/
def cacheEffects (tr : List BrokerEffect) : List BrokerEffect :=
  tr.filter fun e =>
    match e with
    | .setSession _ _ => true
    | .setClientId _ _ => true
    | .reportHeartbeat _ _ _ => true
    | _ => false

/-- The session-store writes (`save_connect_session` attempts) of a trace. -/
def sessionStoreWrites (tr : List BrokerEffect) : List String :=
  tr.filterMap fun e =>
    match e with
    | .saveSessionStore c => some c
    | _ => none

/-- Modelled from the spec: the display string of
`RobustMQError::NotFoundConnectionInCache` ("not found connection in
cache"). -/
def notFoundConnectionMsg (connect_id : Nat) : String :=
  "not found connection in cache, connection_id " ++ toString connect_id

/-- Modelled from the spec: the display string of
`RobustMQError::NotFoundClientInCache`. -/
def notFoundClientMsg (client_id : String) : String :=
  "not found client in cache, client_id " ++ client_id

/-- Rust `format!("{:?}", v)` for a vector of numeric offsets: the Debug
rendering `[o1, o2, ...]`.  The source captures the offset string as the
Debug format of the whole value returned by `append_topic_message` (per the
spec, the list of offsets of the appended records). -/
def rustDebugList (l : List Nat) : String :=
  "[" ++ String.intercalate ", " (l.map toString) ++ "]"

/-- Oracle results for one `publish` call: the two metadata-cache lookups,
the topic lookup, the id `Topic::new` would generate, and the results of
`save_topic`, `create_shard`, `save_retain_message`,
`Message::build_record` and `append_topic_message` (the latter returning the
offsets of the appended records, per the spec). -/
structure PublishEnv where
  connect_id_info : Option String
  session_info : Option Session
  get_topic_by_name : Option String
  new_topic_id : String
  save_topic : Except String Unit
  create_shard : Except String Unit
  save_retain : Except String Unit
  build_record : Option Record
  append : Except String (List Nat)

/-- The `publish` handler (`mqtt5.rs` lines 169–294), returning the optional
reply packet.  Control flow follows the source: resolve `client_id` from the
cache, then the session; resolve the topic by name (creating, persisting and
`create_shard`-ing it when absent); persist the retain message when
`publish.retain`; build the record and append it, capturing the offset
string as `format!("{:?}", da)`; push `("offset", offset)` onto the
publish's user properties when the offset string is non-empty; finally
answer by QoS (AtMostOnce → none, AtLeastOnce → PUBACK(pkid, user
properties), ExactlyOnce → PUBREC(session_present)). -/
def publishHandler (env : PublishEnv) (connect_id : Nat) (publish : Publish)
    (publish_properties : Option PublishProperties) : Option MQTTPacket :=
  match env.connect_id_info with
  | none =>
    some (.disconnect .UnspecifiedError (some (notFoundConnectionMsg connect_id)))
  | some client_id =>
    match env.session_info with
    | none =>
      some (.disconnect .UnspecifiedError (some (notFoundClientMsg client_id)))
    | some session =>
      let topicStep : Except (Option MQTTPacket) String :=
        match env.get_topic_by_name with
        | some tp => .ok tp
        | none =>
          match env.save_topic with
          | .error e =>
            .error (some (.disconnect .UnspecifiedError (some e)))
          | .ok _ =>
            match env.create_shard with
            | .error e =>
              .error (some (.disconnect .UnspecifiedError (some e)))
            | .ok _ => .ok env.new_topic_id
      match topicStep with
      | .error reply => reply
      | .ok _topic_id =>
        let retainStep : Except (Option MQTTPacket) Unit :=
          if publish.retain then
            match env.save_retain with
            | .error e =>
              .error (some (.disconnect .UnspecifiedError (some e)))
            | .ok _ => .ok ()
          else .ok ()
        match retainStep with
        | .error reply => reply
        | .ok _ =>
          let appendStep : Except (Option MQTTPacket) String :=
            match env.build_record with
            | none => .ok ""
            | some _ =>
              match env.append with
              | .ok da => .ok (rustDebugList da)
              | .error e =>
                .error (some (.disconnect .UnspecifiedError (some e)))
          match appendStep with
          | .error reply => reply
          | .ok offset =>
            let pkid := publish.pkid
            let baseProps :=
              match publish_properties with
              | some properties => properties.user_properties
              | none => []
            let user_properties :=
              if offset.isEmpty then baseProps
              else baseProps ++ [("offset", offset)]
            match publish.qos with
            | .AtMostOnce => none
            | .AtLeastOnce => some (.pubAck pkid user_properties)
            | .ExactlyOnce => some (.pubRec session.session_present)

/-- The user-property list carried by an optional reply packet: PUBACKs
carry their user properties; every other reply of this slice carries none. -/
def replyUserProps : Option MQTTPacket → List (String × String)
  | some (.pubAck _ ups) => ups
  | _ => []

/-! ## PUBACK / PUBREL handlers (`mqtt5.rs` lines 296–298)

The source's `publish_ack` and `publish_rel` take `&self` and have empty
bodies; they perform no effect.  No handler for PUBREC or PUBCOMP exists in
the source at all. -/

/-- A received PUBACK packet (`protocol::mqtt::PubAck`). -/
structure PubAck where
  pkid : Nat
deriving DecidableEq, Repr

/-- Received PUBACK properties (`protocol::mqtt::PubAckProperties`). -/
structure PubAckProperties where
  user_properties : List (String × String) := []
deriving DecidableEq, Repr

/-- A received PUBREL packet (`protocol::mqtt::PubRel`). -/
structure PubRel where
  pkid : Nat
deriving DecidableEq, Repr

/-- Received PUBREL properties (`protocol::mqtt::PubRelProperties`). -/
structure PubRelProperties where
  user_properties : List (String × String) := []
deriving DecidableEq, Repr

/-- The `publish_ack` handler: its body in the source is empty, so it
performs no effect. -/
def publish_ack (_pub_ack : PubAck)
    (_puback_properties : Option PubAckProperties) : List BrokerEffect :=
  []

/-- The `publish_rel` handler: its body in the source is empty, so it
performs no effect. -/
def publish_rel (_pub_rel : PubRel)
    (_pubrel_properties : Option PubRelProperties) : List BrokerEffect :=
  []

/-! ## Journal metadata-mutation RPC (`service_journal.rs`)

Each write endpoint wraps the protobuf-encoded request in a `StorageData`
tagged with the matching mutation kind and submits it to the replicated log
via `client_write`.  The request types, their `encode_to_vec` and raft
`client_write` are external: the handlers are polymorphic in the request
type, take the encoder and the log as oracles, and return the list of
`StorageData` values submitted to the log together with the RPC outcome. -/

/-- The journal mutation kinds of `StorageDataType` used by this service. -/
inductive StorageDataType
  | JournalCreateShard
  | JournalDeleteShard
  | JournalCreateSegment
  | JournalDeleteSegment
deriving DecidableEq, Repr

/-- Modelled from the spec: `StorageData { kind, bytes }` — a replicated-log
entry pairing a mutation kind with the wire-encoded request. -/
structure StorageData where
  data_type : StorageDataType
  value : List Nat
deriving DecidableEq, Repr

/-- `StorageData::new(kind, bytes)`. -/
def StorageData.new (t : StorageDataType) (v : List Nat) : StorageData :=
  { data_type := t, value := v }

/-- `CommonReply::default()`: the empty reply of the write endpoints. -/
structure CommonReply
deriving DecidableEq, Repr

/-- A tonic RPC outcome: a successful response or a cancellation status
carrying a message (`Status::cancelled`). -/
inductive GrpcResult (α : Type)
  | ok (reply : α)
  | cancelled (msg : String)
deriving DecidableEq, Repr

/-- `create_shard` (`service_journal.rs` lines 69–86): wrap the encoded
request in `StorageData` with kind `JournalCreateShard`, submit via
`client_write`; success answers the default `CommonReply`, failure a
cancellation status with the error string. -/
def create_shard {Req : Type} (encode : Req → List Nat)
    (client_write : StorageData → Except String Unit) (request : Req) :
    List StorageData × GrpcResult CommonReply :=
  let data := StorageData.new .JournalCreateShard (encode request)
  match client_write data with
  | .ok _ => ([data], .ok {})
  | .error e => ([data], .cancelled e)

/-- `delete_shard` (`service_journal.rs` lines 88–105): as `create_shard`
with kind `JournalDeleteShard`. -/
def delete_shard {Req : Type} (encode : Req → List Nat)
    (client_write : StorageData → Except String Unit) (request : Req) :
    List StorageData × GrpcResult CommonReply :=
  let data := StorageData.new .JournalDeleteShard (encode request)
  match client_write data with
  | .ok _ => ([data], .ok {})
  | .error e => ([data], .cancelled e)

/-- `create_segment` (`service_journal.rs` lines 116–133): as `create_shard`
with kind `JournalCreateSegment`. -/
def create_segment {Req : Type} (encode : Req → List Nat)
    (client_write : StorageData → Except String Unit) (request : Req) :
    List StorageData × GrpcResult CommonReply :=
  let data := StorageData.new .JournalCreateSegment (encode request)
  match client_write data with
  | .ok _ => ([data], .ok {})
  | .error e => ([data], .cancelled e)

/-- `delete_segment` (`service_journal.rs` lines 135–153): as `create_shard`
with kind `JournalDeleteSegment`. -/
def delete_segment {Req : Type} (encode : Req → List Nat)
    (client_write : StorageData → Except String Unit) (request : Req) :
    List StorageData × GrpcResult CommonReply :=
  let data := StorageData.new .JournalDeleteSegment (encode request)
  match client_write data with
  | .ok _ => ([data], .ok {})
  | .error e => ([data], .cancelled e)

/-- The `get_shard` request.  Modelled from the spec: the protobuf message
names the shard whose information is requested. -/
structure GetShardRequest where
  cluster_name : String
  shard_name : String
deriving DecidableEq, Repr

/-- The `get_shard` reply.  Modelled from the spec: carries the shard
information; `GetShardReply::default()` has every field empty. -/
structure GetShardReply where
  shard_info : String
deriving DecidableEq, Repr

/-- `GetShardReply::default()`. -/
def GetShardReply.default : GetShardReply :=
  { shard_info := "" }

/-- `get_shard` (`service_journal.rs` lines 107–114): the source binds
`let result = GetShardReply::default();` and returns it — it submits nothing
to the replicated log, and neither the request nor the placement cache
(available as `self.placement_cache`, passed here as `_placement_cache`)
influences the reply. -/
def get_shard (_placement_cache : String → Option String)
    (_request : GetShardRequest) : List StorageData × GrpcResult GetShardReply :=
  ([], .ok GetShardReply.default)

/-! ## Concrete instances used by witnesses and counterexamples -/

/-- A decode oracle that accepts every record, stamping a fixed publisher. -/
def decodeAll : Record → Except String Message :=
  fun r => .ok { client_id := "pub", qos := .AtLeastOnce, retain := true, payload := r.data }

/-- A commit oracle that always succeeds. -/
def commitAlwaysOk : Nat → Except String Unit :=
  fun _ => .ok ()

/-- A sample exclusive subscription descriptor. -/
def subA : Subscriber :=
  { protocol := .MQTT5
    client_id := "a"
    packet_identifier := 3
    qos := .AtMostOnce
    nolocal := false
    preserve_retain := false
    subscription_identifier := some 9
    topic_id := "t1"
    topic_name := "t/a" }

/-- A sample two-record batch. -/
def batchTwo : List Record :=
  [{ offset := 1, data := "m1" }, { offset := 2, data := "m2" }]

/-! ## Helper lemmas -/

theorem sentPackets_append (a b : List PushEffect) :
    sentPackets (a ++ b) = sentPackets a ++ sentPackets b := by
  simp [sentPackets]

theorem commitsOf_append (a b : List PushEffect) :
    commitsOf (a ++ b) = commitsOf a ++ commitsOf b := by
  simp [commitsOf]

/-- Membership in the `sub_id` vector is exactly "the subscription
identifier is set to this value". -/
theorem mem_sub_id_of (s : Subscriber) (i : Nat) :
    i ∈ sub_id_of s ↔ s.subscription_identifier = some i := by
  unfold sub_id_of
  cases h : s.subscription_identifier <;> simp [eq_comm]

/-- The packets sent while processing one record. -/
theorem sentPackets_recordEffects (decode : Record → Except String Message)
    (s : Subscriber) (cid lo : Nat) (c : Except String Unit) (r : Record) :
    sentPackets (recordEffects decode s cid lo c r) =
      (match decode r with
       | .error _ => []
       | .ok msg =>
         if s.nolocal && (s.client_id == msg.client_id) then []
         else
           [(cid,
             { dup := false
               qos := min_qos msg.qos s.qos
               pkid := s.packet_identifier
               retain := if s.preserve_retain then msg.retain else false
               topic := s.topic_name
               payload := msg.payload },
             { subscription_identifiers := sub_id_of s })]) := by
  unfold recordEffects
  cases hd : decode r with
  | error e => simp [sentPackets]
  | ok msg =>
    by_cases hn : (s.nolocal && (s.client_id == msg.client_id)) = true
    · simp [hn, sentPackets]
    · cases c <;> simp [hn, sentPackets]

/-- The commits performed while processing one record. -/
theorem commitsOf_recordEffects (decode : Record → Except String Message)
    (s : Subscriber) (cid lo : Nat) (c : Except String Unit) (r : Record) :
    commitsOf (recordEffects decode s cid lo c r) =
      (match decode r with
       | .error _ => []
       | .ok msg =>
         if s.nolocal && (s.client_id == msg.client_id) then []
         else [(s.topic_id, group_id_of s, lo)]) := by
  unfold recordEffects
  cases hd : decode r with
  | error e => simp [commitsOf]
  | ok msg =>
    by_cases hn : (s.nolocal && (s.client_id == msg.client_id)) = true
    · simp [hn, commitsOf]
    · cases c <;> simp [hn, commitsOf]

theorem sentPackets_pushRecordsAux (decode : Record → Except String Message)
    (s : Subscriber) (cid lo : Nat) (cres : Nat → Except String Unit) :
    ∀ (l : List Record) (k : Nat),
      sentPackets (pushRecordsAux decode s cid lo cres k l) =
        l.filterMap (fun r =>
          match decode r with
          | .error _ => none
          | .ok msg =>
            if s.nolocal && (s.client_id == msg.client_id) then none
            else
              some (cid,
                { dup := false
                  qos := min_qos msg.qos s.qos
                  pkid := s.packet_identifier
                  retain := if s.preserve_retain then msg.retain else false
                  topic := s.topic_name
                  payload := msg.payload },
                { subscription_identifiers := sub_id_of s })) := by
  intro l
  induction l with
  | nil => intro k; simp [pushRecordsAux, sentPackets]
  | cons r rest ih =>
    intro k
    rw [pushRecordsAux, sentPackets_append, sentPackets_recordEffects, ih,
      List.filterMap_cons]
    cases hd : decode r with
    | error e => simp [hd]
    | ok msg =>
      by_cases hn : (s.nolocal && (s.client_id == msg.client_id)) = true
      · simp [hd, hn]
      · simp [hd, hn]

theorem commitsOf_pushRecordsAux (decode : Record → Except String Message)
    (s : Subscriber) (cid lo : Nat) (cres : Nat → Except String Unit) :
    ∀ (l : List Record) (k : Nat),
      commitsOf (pushRecordsAux decode s cid lo cres k l) =
        l.filterMap (fun r =>
          match decode r with
          | .error _ => none
          | .ok msg =>
            if s.nolocal && (s.client_id == msg.client_id) then none
            else some (s.topic_id, group_id_of s, lo)) := by
  intro l
  induction l with
  | nil => intro k; simp [pushRecordsAux, commitsOf]
  | cons r rest ih =>
    intro k
    rw [pushRecordsAux, commitsOf_append, commitsOf_recordEffects, ih,
      List.filterMap_cons]
    cases hd : decode r with
    | error e => simp [hd]
    | ok msg =>
      by_cases hn : (s.nolocal && (s.client_id == msg.client_id)) = true
      · simp [hd, hn]
      · simp [hd, hn]

/-- The Debug rendering of an offsets list is never the empty string (it at
least contains the brackets). -/
theorem rustDebugList_ne_empty (l : List Nat) : rustDebugList l ≠ "" := by
  unfold rustDebugList
  intro h
  have hd := congrArg String.data h
  simp [String.data_append] at hd

/-- The empty string is empty, in Boolean form. -/
theorem string_empty_isEmpty : ("" : String).isEmpty = true := rfl

/-- Boolean form of `rustDebugList_ne_empty`. -/
theorem rustDebugList_isEmpty (l : List Nat) :
    (rustDebugList l).isEmpty = false := by
  by_contra h
  rw [Bool.not_eq_false] at h
  exact rustDebugList_ne_empty l ((String.isEmpty_iff _).mp h)

/-- The effects of a trace that are not cache / heartbeat updates. -/
def nonCacheEffects (tr : List BrokerEffect) : List BrokerEffect :=
  tr.filter fun e =>
    match e with
    | .setSession _ _ => false
    | .setClientId _ _ => false
    | .reportHeartbeat _ _ _ => false
    | _ => true

/-! ## Claim theorems -/

/-- C1: for every record a push-loop iteration reads from a non-empty batch,
the record is decoded into a `Message`; when the descriptor has `nolocal`
set and the message's `client_id` equals the descriptor's `client_id` the
record is skipped (and a record that fails to decode is skipped too);
otherwise exactly one PUBLISH packet is sent, carrying
`qos = min(msg.qos, descriptor.qos)`, `retain = msg.retain` when the
descriptor preserves retain and `false` otherwise,
`pkid = descriptor.packet_identifier`, `topic = descriptor.topic_name`, the
decoded payload, and publish properties whose `subscription_identifiers`
contains the descriptor's subscription identifier exactly when it is
set. -/
theorem exclusive_push_delivery (decode : Record → Except String Message)
    (s : Subscriber) (cid : Nat) (cres : Nat → Except String Unit)
    (batch : List Record) (last : Record)
    (hlast : batch.getLast? = some last) :
    sentPackets (pushBatch decode s cid cres batch) =
      batch.filterMap (fun r =>
        match decode r with
        | .error _ => none
        | .ok msg =>
          if s.nolocal && (s.client_id == msg.client_id) then none
          else
            some (cid,
              { dup := false
                qos := min_qos msg.qos s.qos
                pkid := s.packet_identifier
                retain := if s.preserve_retain then msg.retain else false
                topic := s.topic_name
                payload := msg.payload },
              { subscription_identifiers := sub_id_of s })) ∧
    ∀ x ∈ sentPackets (pushBatch decode s cid cres batch),
      ∀ i, i ∈ x.2.2.subscription_identifiers ↔
        s.subscription_identifier = some i := by
  have h1 :
      sentPackets (pushBatch decode s cid cres batch) =
        batch.filterMap (fun r =>
          match decode r with
          | .error _ => none
          | .ok msg =>
            if s.nolocal && (s.client_id == msg.client_id) then none
            else
              some (cid,
                { dup := false
                  qos := min_qos msg.qos s.qos
                  pkid := s.packet_identifier
                  retain := if s.preserve_retain then msg.retain else false
                  topic := s.topic_name
                  payload := msg.payload },
                { subscription_identifiers := sub_id_of s })) := by
    unfold pushBatch
    rw [hlast]
    exact sentPackets_pushRecordsAux decode s cid last.offset cres batch 0
  refine ⟨h1, ?_⟩
  intro x hx i
  rw [h1] at hx
  obtain ⟨r, _, hf⟩ := List.mem_filterMap.mp hx
  split at hf
  · cases hf
  · split at hf
    · cases hf
    · cases Option.some.inj hf
      exact mem_sub_id_of s i

/-- Concrete application of `exclusive_push_delivery`: the two-record batch
is delivered as two PUBLISH packets with the descriptor's pkid, topic, the
capped QoS, cleared retain, and the subscription identifier in the
properties. -/
theorem exclusive_push_delivery_witness :
    batchTwo.getLast? = some { offset := 2, data := "m2" } ∧
    sentPackets (pushBatch decodeAll subA 7 commitAlwaysOk batchTwo) =
      [(7,
        { dup := false, qos := .AtMostOnce, pkid := 3, retain := false
          topic := "t/a", payload := "m1" },
        { subscription_identifiers := [9] }),
       (7,
        { dup := false, qos := .AtMostOnce, pkid := 3, retain := false
          topic := "t/a", payload := "m2" },
        { subscription_identifiers := [9] })] := by
  refine ⟨rfl, ?_⟩
  have h :=
    (exclusive_push_delivery decodeAll subA 7 commitAlwaysOk batchTwo
      { offset := 2, data := "m2" } rfl).1
  rw [h]
  decide

/-- C2 counterexample: on a two-record batch in which both records are
decoded and delivered, the loop calls `commit_group_offset` twice (the
commit statement sits inside the per-record `for` loop), not exactly once
after the batch. -/
theorem exclusive_push_commit_not_once :
    (commitsOf (pushBatch decodeAll subA 7 commitAlwaysOk batchTwo)).length = 2 ∧
    ¬ (commitsOf (pushBatch decodeAll subA 7 commitAlwaysOk batchTwo)).length = 1 := by
  decide

/-- C2 (amended): in every iteration that reads a non-empty batch, the loop
commits once per record it actually delivers — records skipped by a decode
failure or by the `nolocal` rule produce no commit, so a batch whose records
are all skipped commits nothing — and every commit targets the
subscription's `topic_id` and group id and carries the offset of the last
record of the batch; commits and deliveries do not depend on earlier commit
outcomes (a failed commit is logged and processing continues). -/
theorem exclusive_push_commit_per_delivered (decode : Record → Except String Message)
    (s : Subscriber) (cid : Nat) (cres : Nat → Except String Unit)
    (batch : List Record) (last : Record)
    (hlast : batch.getLast? = some last) :
    commitsOf (pushBatch decode s cid cres batch) =
      batch.filterMap (fun r =>
        match decode r with
        | .error _ => none
        | .ok msg =>
          if s.nolocal && (s.client_id == msg.client_id) then none
          else some (s.topic_id, group_id_of s, last.offset)) := by
  unfold pushBatch
  rw [hlast]
  exact commitsOf_pushRecordsAux decode s cid last.offset cres batch 0

/-- Concrete application of `exclusive_push_commit_per_delivered`: both
delivered records of the two-record batch produce a commit of the last
record's offset for the subscription's topic and group. -/
theorem exclusive_push_commit_per_delivered_witness :
    commitsOf (pushBatch decodeAll subA 7 commitAlwaysOk batchTwo) =
      [("t1", "system_sub_a", 2), ("t1", "system_sub_a", 2)] := by
  have h :=
    exclusive_push_commit_per_delivered decodeAll subA 7 commitAlwaysOk batchTwo
      { offset := 2, data := "m2" } rfl
  rw [h]
  decide

/-- C5: when the authentication plugin returns `false` the CONNECT handler
answers DISCONNECT(NotAuthorized) with no reason string, and when it
returns an error it answers DISCONNECT(NotAuthorized) carrying the error's
string; in both cases the effect trace is empty — in particular no session
is persisted. -/
theorem connect_auth_failure (env : ConnectEnv) (cid : Nat) (c : Connect)
    (lw : Option String) :
    (env.auth = .ok false →
      connect env cid c lw = (.disconnect .NotAuthorized none, [])) ∧
    (∀ e, env.auth = .error e →
      connect env cid c lw = (.disconnect .NotAuthorized (some e), [])) := by
  constructor
  · intro h
    simp [connect, h]
  · intro e h
    simp [connect, h]

/-- An environment whose authentication plugin denies the login. -/
def envAuthDenied : ConnectEnv :=
  { auth := .ok false
    gen_client_id := "g1"
    save_session := .ok { keep_alive := 60, session_present := false }
    save_lastwill := .ok () }

/-- An environment whose authentication plugin fails with an error. -/
def envAuthErr : ConnectEnv :=
  { auth := .error "bad token"
    gen_client_id := "g1"
    save_session := .ok { keep_alive := 60, session_present := false }
    save_lastwill := .ok () }

/-- Concrete application of `connect_auth_failure` for both failure
shapes. -/
theorem connect_auth_failure_witness :
    connect envAuthDenied 5 { client_id := "c" } none =
      (.disconnect .NotAuthorized none, []) ∧
    connect envAuthErr 5 { client_id := "c" } none =
      (.disconnect .NotAuthorized (some "bad token"), []) :=
  ⟨(connect_auth_failure envAuthDenied 5 { client_id := "c" } none).1 rfl,
   (connect_auth_failure envAuthErr 5 { client_id := "c" } none).2 "bad token" rfl⟩

/-- C7: a CONNECT with an empty `client_id` uses the generated unique id —
for the persisted session, the cache bindings and the CONNACK — and the
CONNACK's assigned-id flag is set exactly when the supplied `client_id` was
empty; a non-empty `client_id` is used unchanged. -/
theorem connect_client_id_assignment (env : ConnectEnv) (conn : Nat)
    (c : Connect) (lw : Option String) (sess : Session)
    (hauth : env.auth = .ok true)
    (hsess : env.save_session = .ok sess)
    (hlw : lw = none ∨ env.save_lastwill = .ok ()) :
    ∃ effs,
      connect env conn c lw =
        (.connAck (if c.client_id.isEmpty then env.gen_client_id else c.client_id)
          c.client_id.isEmpty sess.session_present, effs) ∧
      BrokerEffect.setSession
        (if c.client_id.isEmpty then env.gen_client_id else c.client_id) sess ∈ effs ∧
      BrokerEffect.setClientId conn
        (if c.client_id.isEmpty then env.gen_client_id else c.client_id) ∈ effs ∧
      BrokerEffect.saveSessionStore
        (if c.client_id.isEmpty then env.gen_client_id else c.client_id) ∈ effs := by
  cases lw with
  | none =>
    simp only [connect, hauth, hsess]
    exact ⟨_, rfl, by simp, by simp, by simp⟩
  | some w =>
    have h : env.save_lastwill = .ok () := by
      rcases hlw with h | h
      · cases h
      · exact h
    simp only [connect, hauth, hsess, h]
    exact ⟨_, rfl, by simp, by simp, by simp⟩

/-- An environment that admits the connection. -/
def envAuthOk : ConnectEnv :=
  { auth := .ok true
    gen_client_id := "auto-1"
    save_session := .ok { keep_alive := 30, session_present := false }
    save_lastwill := .ok () }

/-- Concrete application of `connect_client_id_assignment`: an empty
client id is replaced by the generated one everywhere, and the assigned-id
flag is set. -/
theorem connect_client_id_assignment_witness :
    ∃ effs,
      connect envAuthOk 5 { client_id := "" } none =
        (.connAck "auto-1" true false, effs) ∧
      BrokerEffect.setSession "auto-1"
        { keep_alive := 30, session_present := false } ∈ effs ∧
      BrokerEffect.setClientId 5 "auto-1" ∈ effs ∧
      BrokerEffect.saveSessionStore "auto-1" ∈ effs := by
  have h := connect_client_id_assignment envAuthOk 5 { client_id := "" } none
    { keep_alive := 30, session_present := false } rfl rfl (Or.inl rfl)
  exact h

/-- C10: a CONNECT that answers an error packet (authentication failure,
session-persist failure or last-will persist failure) performs no cache or
heartbeat update: whenever the reply is a DISCONNECT the trace contains no
`set_session`, `set_client_id` or `report_hearbeat` call, a non-empty cache
update set implies authentication admitted the connection and both persists
succeeded, and in every case the cache updates come after all store
writes. -/
theorem connect_error_no_cache_update (env : ConnectEnv) (conn : Nat)
    (c : Connect) (lw : Option String) :
    (∀ code reason, (connect env conn c lw).1 = .disconnect code reason →
      cacheEffects (connect env conn c lw).2 = []) ∧
    (cacheEffects (connect env conn c lw).2 ≠ [] →
      env.auth = .ok true ∧ (∃ s, env.save_session = .ok s) ∧
      (lw ≠ none → env.save_lastwill = .ok ())) ∧
    (connect env conn c lw).2 =
      nonCacheEffects (connect env conn c lw).2 ++
        cacheEffects (connect env conn c lw).2 := by
  cases hauth : env.auth with
  | error e =>
    simp [connect, hauth, cacheEffects, nonCacheEffects]
  | ok b =>
    cases b with
    | false =>
      simp [connect, hauth, cacheEffects, nonCacheEffects]
    | true =>
      cases hsess : env.save_session with
      | error e =>
        simp [connect, hauth, hsess, cacheEffects, nonCacheEffects]
      | ok sess =>
        cases lw with
        | none =>
          refine ⟨?_, ?_, ?_⟩
          · intro code reason h
            simp [connect, hauth, hsess] at h
          · intro _
            exact ⟨rfl, ⟨sess, rfl⟩, fun h => absurd rfl h⟩
          · simp [connect, hauth, hsess, cacheEffects, nonCacheEffects]
        | some w =>
          cases hlwres : env.save_lastwill with
          | error e =>
            refine ⟨?_, ?_, ?_⟩
            · intro code reason _
              simp [connect, hauth, hsess, hlwres, cacheEffects]
            · intro hne
              exfalso
              apply hne
              simp [connect, hauth, hsess, hlwres, cacheEffects]
            · simp [connect, hauth, hsess, hlwres, cacheEffects, nonCacheEffects]
          | ok u =>
            refine ⟨?_, ?_, ?_⟩
            · intro code reason h
              simp [connect, hauth, hsess, hlwres] at h
            · intro _
              exact ⟨rfl, ⟨sess, rfl⟩, fun _ => rfl⟩
            · simp [connect, hauth, hsess, hlwres, cacheEffects, nonCacheEffects]

/-- Concrete application of `connect_error_no_cache_update`: a denied login
leaves the cache and heartbeat manager untouched. -/
theorem connect_error_no_cache_update_witness :
    cacheEffects (connect envAuthDenied 5 { client_id := "c" } none).2 = [] :=
  (connect_error_no_cache_update envAuthDenied 5 { client_id := "c" } none).1
    .NotAuthorized none rfl

/-- C3: when every durable step of a PUBLISH succeeds (connection and
session found in the cache, topic found or created with its shard, retain
persisted when requested, record appended when built), the reply is
determined by the publish QoS alone: AtMostOnce answers nothing,
AtLeastOnce answers a PUBACK carrying the publish's pkid, ExactlyOnce
answers a PUBREC carrying the session's `session_present` flag. -/
theorem publish_reply_by_qos (env : PublishEnv) (cid : Nat) (p : Publish)
    (props : Option PublishProperties) (client : String) (sess : Session)
    (hc : env.connect_id_info = some client)
    (hs : env.session_info = some sess)
    (ht : env.get_topic_by_name = none →
      env.save_topic = .ok () ∧ env.create_shard = .ok ())
    (hr : p.retain = true → env.save_retain = .ok ())
    (ha : ∀ r, env.build_record = some r → ∃ da, env.append = .ok da) :
    (p.qos = .AtMostOnce → publishHandler env cid p props = none) ∧
    (p.qos = .AtLeastOnce →
      ∃ ups, publishHandler env cid p props = some (.pubAck p.pkid ups)) ∧
    (p.qos = .ExactlyOnce →
      publishHandler env cid p props = some (.pubRec sess.session_present)) := by
  have main : ∃ ups, publishHandler env cid p props =
      (match p.qos with
       | .AtMostOnce => none
       | .AtLeastOnce => some (.pubAck p.pkid ups)
       | .ExactlyOnce => some (.pubRec sess.session_present)) := by
    cases hg : env.get_topic_by_name with
    | some tp =>
      cases hpr : p.retain with
      | false =>
        cases hb : env.build_record with
        | none =>
          exact ⟨(match props with | some pp => pp.user_properties | none => []),
            by simp [publishHandler, hc, hs, hg, hpr, hb, string_empty_isEmpty]⟩
        | some r =>
          obtain ⟨da, hda⟩ := ha r hb
          exact ⟨(match props with | some pp => pp.user_properties | none => []) ++
              [("offset", rustDebugList da)],
            by simp [publishHandler, hc, hs, hg, hpr, hb, hda, rustDebugList_isEmpty]⟩
      | true =>
        have hrr := hr hpr
        cases hb : env.build_record with
        | none =>
          exact ⟨(match props with | some pp => pp.user_properties | none => []),
            by simp [publishHandler, hc, hs, hg, hpr, hrr, hb, string_empty_isEmpty]⟩
        | some r =>
          obtain ⟨da, hda⟩ := ha r hb
          exact ⟨(match props with | some pp => pp.user_properties | none => []) ++
              [("offset", rustDebugList da)],
            by simp [publishHandler, hc, hs, hg, hpr, hrr, hb, hda, rustDebugList_isEmpty]⟩
    | none =>
      obtain ⟨hst, hcs⟩ := ht hg
      cases hpr : p.retain with
      | false =>
        cases hb : env.build_record with
        | none =>
          exact ⟨(match props with | some pp => pp.user_properties | none => []),
            by simp [publishHandler, hc, hs, hg, hst, hcs, hpr, hb, string_empty_isEmpty]⟩
        | some r =>
          obtain ⟨da, hda⟩ := ha r hb
          exact ⟨(match props with | some pp => pp.user_properties | none => []) ++
              [("offset", rustDebugList da)],
            by simp [publishHandler, hc, hs, hg, hst, hcs, hpr, hb, hda,
              rustDebugList_isEmpty]⟩
      | true =>
        have hrr := hr hpr
        cases hb : env.build_record with
        | none =>
          exact ⟨(match props with | some pp => pp.user_properties | none => []),
            by simp [publishHandler, hc, hs, hg, hst, hcs, hpr, hrr, hb, string_empty_isEmpty]⟩
        | some r =>
          obtain ⟨da, hda⟩ := ha r hb
          exact ⟨(match props with | some pp => pp.user_properties | none => []) ++
              [("offset", rustDebugList da)],
            by simp [publishHandler, hc, hs, hg, hst, hcs, hpr, hrr, hb, hda,
              rustDebugList_isEmpty]⟩
  obtain ⟨ups, main⟩ := main
  refine ⟨fun hq => ?_, fun hq => ⟨ups, ?_⟩, fun hq => ?_⟩ <;> rw [main, hq]

/-- An all-success publish environment: the topic is already known and the
record is appended at offset 7. -/
def envPubOk : PublishEnv :=
  { connect_id_info := some "c1"
    session_info := some { keep_alive := 60, session_present := true }
    get_topic_by_name := some "t1"
    new_topic_id := "nt"
    save_topic := .ok ()
    create_shard := .ok ()
    save_retain := .ok ()
    build_record := some { offset := 0, data := "d" }
    append := .ok [7] }

/-- A QoS-2 publish packet. -/
def pubQos2 : Publish :=
  { dup := false, qos := .ExactlyOnce, pkid := 17, retain := false
    topic := "t/a", payload := "hello" }

/-- The same packet at QoS 1. -/
def pubQos1 : Publish :=
  { dup := false, qos := .AtLeastOnce, pkid := 17, retain := false
    topic := "t/a", payload := "hello" }

/-- Concrete application of `publish_reply_by_qos`: a successful QoS-2
publish answers PUBREC with the session's `session_present`. -/
theorem publish_reply_by_qos_witness :
    publishHandler envPubOk 1 pubQos2 none = some (.pubRec true) := by
  refine (publish_reply_by_qos envPubOk 1 pubQos2 none "c1"
    { keep_alive := 60, session_present := true } rfl rfl ?_ ?_ ?_).2.2 rfl
  · intro hg
    exact absurd hg (by decide)
  · intro hpr
    exact absurd hpr (by decide)
  · intro r hb
    exact ⟨[7], rfl⟩

/-- C4 counterexample: at a successfully appended QoS-2 publish the reply is
a PUBREC that carries no user properties at all, so the `("offset", …)` pair
is absent from the response; and even at QoS 1, where the PUBACK does carry
the user properties, the offset string is the Debug rendering of the offsets
list (`"[7]"`), not the textual form of the offset (`"7"`). -/
theorem publish_offset_missing_in_pubrec :
    publishHandler envPubOk 1 pubQos2 none = some (.pubRec true) ∧
    replyUserProps (publishHandler envPubOk 1 pubQos2 none) = [] ∧
    publishHandler envPubOk 1 pubQos1 none =
      some (.pubAck 17 [("offset", "[7]")]) ∧
    ("offset", "7") ∉ replyUserProps (publishHandler envPubOk 1 pubQos1 none) := by
  decide

/-- C4 (amended): for every successfully appended PUBLISH the handler
captures the offsets returned by `append_topic_message` as the Debug-format
string of the offset list and appends `("offset", that string)` to the
publish's user properties, preserving the original ones; the resulting list
is carried only by the QoS-1 PUBACK reply — a QoS-0 publish returns no
packet and the QoS-2 PUBREC carries only the session's `session_present`
and no user properties. -/
theorem publish_offset_in_puback (env : PublishEnv) (cid : Nat) (p : Publish)
    (props : Option PublishProperties) (client : String) (sess : Session)
    (r : Record) (da : List Nat)
    (hc : env.connect_id_info = some client)
    (hs : env.session_info = some sess)
    (ht : env.get_topic_by_name = none →
      env.save_topic = .ok () ∧ env.create_shard = .ok ())
    (hr : p.retain = true → env.save_retain = .ok ())
    (hb : env.build_record = some r)
    (hda : env.append = .ok da) :
    (p.qos = .AtLeastOnce →
      publishHandler env cid p props =
        some (.pubAck p.pkid
          ((match props with
            | some pp => pp.user_properties
            | none => []) ++ [("offset", rustDebugList da)]))) ∧
    (p.qos = .AtMostOnce → publishHandler env cid p props = none) ∧
    (p.qos = .ExactlyOnce →
      publishHandler env cid p props = some (.pubRec sess.session_present) ∧
      replyUserProps (publishHandler env cid p props) = []) := by
  have core : publishHandler env cid p props =
      (match p.qos with
       | .AtMostOnce => none
       | .AtLeastOnce =>
         some (.pubAck p.pkid
           ((match props with
             | some pp => pp.user_properties
             | none => []) ++ [("offset", rustDebugList da)]))
       | .ExactlyOnce => some (.pubRec sess.session_present)) := by
    cases hg : env.get_topic_by_name with
    | some tp =>
      cases hpr : p.retain with
      | false => simp [publishHandler, hc, hs, hg, hpr, hb, hda, rustDebugList_isEmpty]
      | true =>
        have hrr := hr hpr
        simp [publishHandler, hc, hs, hg, hpr, hrr, hb, hda, rustDebugList_isEmpty]
    | none =>
      obtain ⟨hst, hcs⟩ := ht hg
      cases hpr : p.retain with
      | false =>
        simp [publishHandler, hc, hs, hg, hst, hcs, hpr, hb, hda, rustDebugList_isEmpty]
      | true =>
        have hrr := hr hpr
        simp [publishHandler, hc, hs, hg, hst, hcs, hpr, hrr, hb, hda,
          rustDebugList_isEmpty]
  refine ⟨fun hq => ?_, fun hq => ?_, fun hq => ⟨?_, ?_⟩⟩ <;> rw [core, hq]
  rfl

/-- Concrete application of `publish_offset_in_puback`: the QoS-1 reply
appends the offset pair after the original user properties. -/
theorem publish_offset_in_puback_witness :
    publishHandler envPubOk 1 pubQos1 (some { user_properties := [("k", "v")] }) =
      some (.pubAck 17 [("k", "v"), ("offset", "[7]")]) := by
  have h := (publish_offset_in_puback envPubOk 1 pubQos1
    (some { user_properties := [("k", "v")] }) "c1"
    { keep_alive := 60, session_present := true } { offset := 0, data := "d" } [7]
    rfl rfl (fun hg => absurd hg (by decide)) (fun hpr => absurd hpr (by decide))
    rfl rfl).1 rfl
  exact h

/-- C6 (code divergence): the source's `publish_ack` and `publish_rel`
handlers have empty bodies, so no PUBACK or PUBREL ever advances any QoS
state and no stored QoS-2 message is persisted or published on PUBREL — the
effect trace of both handlers is empty for every input (and the source has
no PUBREC or PUBCOMP handler at all). -/
theorem publish_ack_rel_no_effect :
    (∀ (a : PubAck) (pa : Option PubAckProperties), publish_ack a pa = []) ∧
    (∀ (r : PubRel) (pr : Option PubRelProperties), publish_rel r pr = []) :=
  ⟨fun _ _ => rfl, fun _ _ => rfl⟩

/-- C8: each of the four journal write RPCs submits to the replicated log
exactly one `StorageData` holding the matching mutation kind and the
wire-encoded request; when `client_write` succeeds the RPC answers the
default (empty) reply, and when it fails the RPC answers a cancellation
status carrying the underlying error string. -/
theorem journal_write_rpcs {Req1 Req2 Req3 Req4 : Type}
    (enc1 : Req1 → List Nat) (enc2 : Req2 → List Nat)
    (enc3 : Req3 → List Nat) (enc4 : Req4 → List Nat)
    (cw : StorageData → Except String Unit)
    (r1 : Req1) (r2 : Req2) (r3 : Req3) (r4 : Req4) :
    ((create_shard enc1 cw r1).1 =
        [StorageData.new .JournalCreateShard (enc1 r1)] ∧
      (∀ u, cw (StorageData.new .JournalCreateShard (enc1 r1)) = .ok u →
        (create_shard enc1 cw r1).2 = .ok {}) ∧
      (∀ e, cw (StorageData.new .JournalCreateShard (enc1 r1)) = .error e →
        (create_shard enc1 cw r1).2 = .cancelled e)) ∧
    ((delete_shard enc2 cw r2).1 =
        [StorageData.new .JournalDeleteShard (enc2 r2)] ∧
      (∀ u, cw (StorageData.new .JournalDeleteShard (enc2 r2)) = .ok u →
        (delete_shard enc2 cw r2).2 = .ok {}) ∧
      (∀ e, cw (StorageData.new .JournalDeleteShard (enc2 r2)) = .error e →
        (delete_shard enc2 cw r2).2 = .cancelled e)) ∧
    ((create_segment enc3 cw r3).1 =
        [StorageData.new .JournalCreateSegment (enc3 r3)] ∧
      (∀ u, cw (StorageData.new .JournalCreateSegment (enc3 r3)) = .ok u →
        (create_segment enc3 cw r3).2 = .ok {}) ∧
      (∀ e, cw (StorageData.new .JournalCreateSegment (enc3 r3)) = .error e →
        (create_segment enc3 cw r3).2 = .cancelled e)) ∧
    ((delete_segment enc4 cw r4).1 =
        [StorageData.new .JournalDeleteSegment (enc4 r4)] ∧
      (∀ u, cw (StorageData.new .JournalDeleteSegment (enc4 r4)) = .ok u →
        (delete_segment enc4 cw r4).2 = .ok {}) ∧
      (∀ e, cw (StorageData.new .JournalDeleteSegment (enc4 r4)) = .error e →
        (delete_segment enc4 cw r4).2 = .cancelled e)) := by
  refine ⟨⟨?_, ?_, ?_⟩, ⟨?_, ?_, ?_⟩, ⟨?_, ?_, ?_⟩, ⟨?_, ?_, ?_⟩⟩
  · cases h : cw (StorageData.new .JournalCreateShard (enc1 r1)) <;>
      simp [create_shard, h]
  · intro u hu
    simp [create_shard, hu]
  · intro e he
    simp [create_shard, he]
  · cases h : cw (StorageData.new .JournalDeleteShard (enc2 r2)) <;>
      simp [delete_shard, h]
  · intro u hu
    simp [delete_shard, hu]
  · intro e he
    simp [delete_shard, he]
  · cases h : cw (StorageData.new .JournalCreateSegment (enc3 r3)) <;>
      simp [create_segment, h]
  · intro u hu
    simp [create_segment, hu]
  · intro e he
    simp [create_segment, he]
  · cases h : cw (StorageData.new .JournalDeleteSegment (enc4 r4)) <;>
      simp [delete_segment, h]
  · intro u hu
    simp [delete_segment, hu]
  · intro e he
    simp [delete_segment, he]

/-- Concrete application of `journal_write_rpcs`: a successful log write
answers the empty reply, a failed one a cancellation with the error
string. -/
theorem journal_write_rpcs_witness :
    (create_shard id (fun _ => (.ok () : Except String Unit)) [1, 2]).2 =
      .ok {} ∧
    (delete_segment id (fun _ => (.error "boom" : Except String Unit)) [3]).2 =
      .cancelled "boom" := by
  constructor
  · exact (journal_write_rpcs id id id id (fun _ => .ok ())
      [1, 2] [] [] []).1.2.1 () rfl
  · exact (journal_write_rpcs id id id id (fun _ => .error "boom")
      [] [] [] [3]).2.2.2.2.2 "boom" rfl

/-- A placement cache holding information for shard `s1`. -/
def cacheWithS1 : String → Option String :=
  fun n => if n = "s1" then some "shard-one" else none

/-- C9 counterexample: `get_shard` answers the default (empty) reply even
when the placement cache holds information for the requested shard — the
handler never consults the cache, so the reply does not carry the shard
information held there. -/
theorem get_shard_ignores_cache :
    get_shard cacheWithS1 { cluster_name := "c1", shard_name := "s1" } =
      ([], .ok { shard_info := "" }) ∧
    cacheWithS1 "s1" = some "shard-one" ∧
    ({ shard_info := "" } : GetShardReply).shard_info ≠ "shard-one" := by
  decide

/-- C9 (amended): `get_shard` submits nothing to the replicated log and
answers `GetShardReply::default()` — a reply independent of both the
request and the placement cache. -/
theorem get_shard_returns_default (cache : String → Option String)
    (req : GetShardRequest) :
    get_shard cache req = ([], .ok GetShardReply.default) :=
  rfl

end RobustMQ
